import Mathlib

/-!
Verification of `voice_to_notes` (two pipeline variants, `V1` and `V2`).

This file gives a shallow embedding of the pure text-processing core of the
repository: the Gemini-response normalizer, the prompt construction and input
truncation, the audio segmentation policy, the order-preserving reassembly of
concurrent transcription results, the fallback summarizer, the Obsidian note
renderers, and the pipeline drivers' success/failure accounting.

Python strings are modelled as Lean `String`s; all operations are implemented
over the underlying character lists (`String.data`) so that every definition
is executable by the kernel.  Python slicing, `len`, `str.strip`, `str.split`
and `in` act on code points, which matches `List Char` exactly.  `json.loads`
is modelled by an executable recursive-descent parser `jparse` over a JSON
value type `JValue` (numeric literals are modelled as integers; floating
point values do not occur in any claim).  Backend calls and file writes are
modelled by explicit parameters (`Option String` for a call that may fail,
`Bool` for a write that may fail); a Python function that catches all
exceptions and returns `None` is modelled as a total function returning
`Option _`.
-/

/-! ### Python-style string primitives (operating on code points) -/

/-- Whitespace characters stripped by Python `str.strip()` (ASCII subset,
which is the relevant one for backend responses). -/
def isPySpace (c : Char) : Bool :=
  c = ' ' ∨ c = '\t' ∨ c = '\n' ∨ c = '\r'

/-- Python `str.strip()`. -/
def pyStrip (s : String) : String :=
  String.mk (((s.data.dropWhile isPySpace).reverse.dropWhile isPySpace).reverse)

/-- Python `len(s)` (number of code points). -/
def pyLen (s : String) : Nat := s.data.length

/-- Python `s.startswith(p)`. -/
def pyStartsWith (s p : String) : Bool := p.data.isPrefixOf s.data

/-- Python `s.endswith(p)`. -/
def pyEndsWith (s p : String) : Bool := p.data.isSuffixOf s.data

/-- Python `s[n:]` (drop the first `n` code points). -/
def pyDrop (s : String) (n : Nat) : String := String.mk (s.data.drop n)

/-- Python `s[:n]` (take the first `n` code points). -/
def pyTake (s : String) (n : Nat) : String := String.mk (s.data.take n)

/-- Python `s[:-n]` (drop the last `n` code points). -/
def pyDropRight (s : String) (n : Nat) : String :=
  String.mk (s.data.take (s.data.length - n))

/-- Split a character list on a separator character, keeping empty segments,
like Python `str.split(sep)` with a one-character separator. -/
def splitOnChar (sep : Char) : List Char → List (List Char)
  | [] => [[]]
  | c :: cs =>
    if c = sep then
      [] :: splitOnChar sep cs
    else
      match splitOnChar sep cs with
      | [] => [[c]]
      | seg :: rest => (c :: seg) :: rest

/-- Python `s.split(sep)` for a one-character separator. -/
def pySplit (s : String) (sep : Char) : List String :=
  (splitOnChar sep s.data).map String.mk

/-- Python `sep.join(parts)`. -/
def pyJoin (sep : String) : List String → String
  | [] => ""
  | h :: t => t.foldl (fun acc x => acc ++ sep ++ x) h

/-- Python `s.split(sep, 1)` for a one-character separator: `none` when the
separator does not occur, otherwise the parts before and after its first
occurrence. -/
def pySplitOnce (s : String) (sep : Char) : Option (String × String) :=
  match pySplit s sep with
  | [] => none
  | [_] => none
  | h :: rest => some (h, pyJoin (String.mk [sep]) rest)

/-- Substring test on character lists (Python `needle in hay`). -/
def listContains (needle : List Char) : List Char → Bool
  | [] => needle.isEmpty
  | c :: cs => needle.isPrefixOf (c :: cs) || listContains needle cs

/-- Python `needle in hay` on strings. -/
def pyContains (hay needle : String) : Bool := listContains needle.data hay.data

/-- Python `s.replace('-', '')`: removes every dash. -/
def pyRemoveDashes (s : String) : String :=
  String.mk (s.data.filter (fun c => ¬ (c = '-')))

/-- Concatenation of a list of strings (used to state that a rendered note is
the concatenation of its section blocks). -/
def concatAll : List String → String
  | [] => ""
  | s :: t => s ++ concatAll t

/-! ### JSON values and a model of `json.loads` -/

/-- JSON values, as produced by `json.loads`.  Objects are ordered key/value
lists (Python dicts preserve insertion order); numeric literals are modelled
as integers. -/
inductive JValue where
  | null : JValue
  | bool (b : Bool) : JValue
  | num (n : Int) : JValue
  | str (s : String) : JValue
  | arr (elems : List JValue) : JValue
  | obj (members : List (String × JValue)) : JValue

/-- First-match lookup in an ordered key/value list (Python `d[k]` /
`k in d`). -/
def getKey (kvs : List (String × JValue)) (k : String) : Option JValue :=
  match kvs with
  | [] => none
  | (k', v) :: rest => if k' = k then some v else getKey rest k

/-- Insert or overwrite a key, keeping the original position of an existing
key (Python dict assignment semantics, used for duplicate keys in a JSON
text). -/
def insertKV (kvs : List (String × JValue)) (k : String) (v : JValue) :
    List (String × JValue) :=
  if (getKey kvs k).isSome then
    kvs.map (fun p => if p.1 = k then (k, v) else p)
  else
    kvs ++ [(k, v)]

/-- JSON whitespace (the four characters `json.loads` skips). -/
def skipWs : List Char → List Char
  | [] => []
  | c :: cs => if isPySpace c then skipWs cs else c :: cs

/-- Decimal digit test. -/
def isDigitCh (c : Char) : Bool := '0' ≤ c ∧ c ≤ '9'

/-- Value of a decimal digit list. -/
def digitsVal : List Char → Nat → Nat
  | [], acc => acc
  | c :: cs, acc => digitsVal cs (acc * 10 + (c.toNat - '0'.toNat))

/-- Hexadecimal digit value, if any. -/
def hexVal (c : Char) : Option Nat :=
  if '0' ≤ c ∧ c ≤ '9' then some (c.toNat - '0'.toNat)
  else if 'a' ≤ c ∧ c ≤ 'f' then some (c.toNat - 'a'.toNat + 10)
  else if 'A' ≤ c ∧ c ≤ 'F' then some (c.toNat - 'A'.toNat + 10)
  else none

/-- Parse the body of a JSON string literal (after the opening quote),
handling the standard escapes. -/
def parseStrChars : List Char → Option (List Char × List Char)
  | [] => none
  | '"' :: rest => some ([], rest)
  | '\\' :: 'u' :: h1 :: h2 :: h3 :: h4 :: rest =>
    match hexVal h1, hexVal h2, hexVal h3, hexVal h4 with
    | some a, some b, some c, some d =>
      match parseStrChars rest with
      | some (cs, rem) =>
        some (Char.ofNat (((a * 16 + b) * 16 + c) * 16 + d) :: cs, rem)
      | none => none
    | _, _, _, _ => none
  | '\\' :: e :: rest =>
    match
      (if e = '"' then some '"'
       else if e = '\\' then some '\\'
       else if e = '/' then some '/'
       else if e = 'b' then some '\x08'
       else if e = 'f' then some '\x0c'
       else if e = 'n' then some '\n'
       else if e = 'r' then some '\r'
       else if e = 't' then some '\t'
       else none) with
    | some c =>
      match parseStrChars rest with
      | some (cs, rem) => some (c :: cs, rem)
      | none => none
    | none => none
  | c :: rest =>
    match parseStrChars rest with
    | some (cs, rem) => some (c :: cs, rem)
    | none => none

/-- Parse an integer JSON number (optional minus sign, one or more digits).
Fails when a fraction or exponent follows, which never occurs in the inputs
relevant here. -/
def parseNum (cs : List Char) : Option (JValue × List Char) :=
  let (neg, cs') :=
    match cs with
    | '-' :: rest => (true, rest)
    | _ => (false, cs)
  let digits := cs'.takeWhile isDigitCh
  let rest := cs'.dropWhile isDigitCh
  if digits.isEmpty then none
  else
    match rest with
    | '.' :: _ => none
    | 'e' :: _ => none
    | 'E' :: _ => none
    | _ =>
      let v : Int := Int.ofNat (digitsVal digits 0)
      some (.num (if neg then -v else v), rest)

mutual

/-- Fuel-indexed recursive-descent parser for a JSON value, returning the
value and the unconsumed input. -/
def parseValue : Nat → List Char → Option (JValue × List Char)
  | 0, _ => none
  | Nat.succ f, cs =>
    match skipWs cs with
    | 'n' :: 'u' :: 'l' :: 'l' :: rest => some (.null, rest)
    | 't' :: 'r' :: 'u' :: 'e' :: rest => some (.bool true, rest)
    | 'f' :: 'a' :: 'l' :: 's' :: 'e' :: rest => some (.bool false, rest)
    | '"' :: rest =>
      match parseStrChars rest with
      | some (body, rem) => some (.str (String.mk body), rem)
      | none => none
    | '\x7b' :: rest =>
      match skipWs rest with
      | '\x7d' :: rem => some (.obj [], rem)
      | cs' => parseMembers f cs' []
    | '[' :: rest =>
      match skipWs rest with
      | ']' :: rem => some (.arr [], rem)
      | cs' => parseElems f cs' []
    | cs' => parseNum cs'

/-- Parse the members of a JSON object (positioned at a key), accumulating
into an ordered dict. -/
def parseMembers : Nat → List Char → List (String × JValue) →
    Option (JValue × List Char)
  | 0, _, _ => none
  | Nat.succ f, cs, acc =>
    match skipWs cs with
    | '"' :: rest =>
      match parseStrChars rest with
      | some (keyChars, rem) =>
        match skipWs rem with
        | ':' :: rem2 =>
          match parseValue f rem2 with
          | some (v, rem3) =>
            let acc' := insertKV acc (String.mk keyChars) v
            match skipWs rem3 with
            | ',' :: rem4 => parseMembers f rem4 acc'
            | '\x7d' :: rem4 => some (.obj acc', rem4)
            | _ => none
          | none => none
        | _ => none
      | none => none
    | _ => none

/-- Parse the elements of a JSON array (positioned at an element). -/
def parseElems : Nat → List Char → List JValue → Option (JValue × List Char)
  | 0, _, _ => none
  | Nat.succ f, cs, acc =>
    match parseValue f cs with
    | some (v, rem) =>
      match skipWs rem with
      | ',' :: rem2 => parseElems f rem2 (acc ++ [v])
      | ']' :: rem2 => some (.arr (acc ++ [v]), rem2)
      | _ => none
    | none => none

end

/-- Model of `json.loads`: parse a complete JSON document; trailing content
other than whitespace is an error. -/
def jparse (s : String) : Option JValue :=
  match parseValue (s.data.length + 2) s.data with
  | some (v, rest) => if (skipWs rest).isEmpty then some v else none
  | none => none

/-! ### The seven required summary fields and the default fill -/

/-- The seven required summary keys, in the order the code checks them
(`required_keys` in both variants). -/
def requiredKeys : List String :=
  ["resumen_ejecutivo", "puntos_clave", "conceptos_importantes",
   "preguntas_dudas", "tareas_acciones", "detalles_adicionales",
   "estructura_contenido"]

/-- `for key in required_keys: if key not in summary_json: summary_json[key] = []`
— insert an empty list for every required key missing from the parsed
object (new keys are appended, matching dict insertion order). -/
def fillRequired (kvs : List (String × JValue)) : List (String × JValue) :=
  requiredKeys.foldl
    (fun acc k => if (getKey acc k).isSome then acc else acc ++ [(k, JValue.arr [])])
    kvs

/-! ### The Gemini prompt (identical literal in both variants) -/

/-- The prompt text preceding the embedded transcript. -/
def geminiPromptPrefix : String :=
  "\nEres un asistente especializado en crear resúmenes académicos detallados en español.\n\nAnaliza esta transcripción y genera un resumen completo en español.\n\nTRANSCRIPCIÓN:\n"

/-- The prompt text following the embedded transcript, including the JSON
template naming the seven required fields. -/
def geminiPromptSuffix : String :=
  "\n\nCrea un análisis con:\n1. RESUMEN EJECUTIVO: Un párrafo completo (3-5 oraciones) que capture la esencia de la sesión\n2. PUNTOS CLAVE PRINCIPALES: Lista (3-8 puntos) con explicaciones de cada tema abordado\n3. CONCEPTOS IMPORTANTES: Términos técnicos, teorías, definiciones importantes\n4. PREGUNTAS Y DUDAS: Interrogantes, discusiones y puntos de reflexión mencionados\n5. TAREAS Y ACCIONES: Exámenes, trabajos, fechas, entregas mencionadas\n6. DETALLES ADICIONALES: Ejemplos dados, referencias mencionadas, datos específicos\n7. ESTRUCTURA DEL CONTENIDO: Organización de los temas tratados\n\nIMPORTANTE: Responde ÚNICAMENTE con un JSON válido usando estas claves exactas:\n\x7b\n    \"resumen_ejecutivo\": \"string con párrafo detallado\",\n    \"puntos_clave\": [\"explicación del punto 1\", \"explicación del punto 2\"],\n    \"conceptos_importantes\": [\"concepto: explicación\", \"concepto: explicación\"],\n    \"preguntas_dudas\": [\"pregunta con contexto\", \"pregunta con contexto\"],\n    \"tareas_acciones\": [\"tarea específica\", \"acción específica\"],\n    \"detalles_adicionales\": [\"ejemplo relevante\", \"dato específico\"],\n    \"estructura_contenido\": [\"tema 1: descripción\", \"tema 2: descripción\"]\n\x7d\n\nSolo JSON, sin texto adicional.\n"

namespace V1

/-! ## `src/voice_to_notes_V1/voice_to_notes.py` -/

/-- Input truncation in `generate_gemini_summary` (V1, lines 181-185):
`max_chars = 12000`; longer inputs are cut at 12000 characters and a
truncation marker is appended. -/
def truncateInput (text : String) : String :=
  if 12000 < pyLen text then
    pyTake text 12000 ++ "...\n[TEXTO TRUNCADO PARA ANÁLISIS]"
  else text

/-- The prompt actually sent to the backend (V1): the fixed template with
the (possibly truncated) transcript embedded. -/
def promptFor (text : String) : String :=
  geminiPromptPrefix ++ truncateInput text ++ geminiPromptSuffix

/-- Fence stripping in V1 (lines 250-261): strip whitespace, remove a
leading ```` ```json ```` or ```` ``` ```` marker, remove a trailing
```` ``` ```` marker, then strip whitespace again. -/
def stripFences (text : String) : String :=
  let c1 := pyStrip text
  let c2 :=
    if pyStartsWith c1 "```json" then pyDrop c1 7
    else if pyStartsWith c1 "```" then pyDrop c1 3
    else c1
  let c3 := if pyEndsWith c2 "```" then pyDropRight c2 3 else c2
  pyStrip c3

/-- `re.search(r'\{.*\}', clean_content, re.DOTALL)` (V1, line 288): the
greedy match runs from the first `{` to the last `}`; `none` when no such
span exists. -/
def extractSpan (s : String) : Option String :=
  match s.data.findIdx? (fun c => c = '\x7b') with
  | none => none
  | some i =>
    match s.data.reverse.findIdx? (fun c => c = '\x7d') with
    | none => none
    | some k =>
      let j := s.data.length - 1 - k
      if i < j then some (String.mk ((s.data.drop i).take (j - i + 1))) else none

/-- The degraded record synthesized when every parse attempt fails (V1,
lines 298-307): executive summary is the first 800 characters of the raw
response (with `"..."` appended when it was longer), the other fields are
fixed placeholders. -/
def degradedMembers (raw : String) : List (String × JValue) :=
    [("resumen_ejecutivo",
       .str (if 800 < pyLen raw then pyTake raw 800 ++ "..." else raw)),
     ("puntos_clave",
       .arr [.str "Contenido procesado por Gemini", .str "Revisar formato de respuesta"]),
     ("conceptos_importantes", .arr [.str "Respuesta sin formato JSON válido"]),
     ("preguntas_dudas", .arr []),
     ("tareas_acciones", .arr [.str "Revisar configuración de prompt"]),
     ("detalles_adicionales", .arr [.str "Contenido generado pero formato incorrecto"]),
     ("estructura_contenido",
       .arr [.str "Gemini respondió correctamente", .str "Formato de JSON necesita ajuste"])]

/-- The degraded record as a JSON value. -/
def degradedRecord (raw : String) : JValue := .obj (degradedMembers raw)

/-- The V1 response normalizer (lines 249-307).  Direct parse of the
fence-stripped text; on success of an object the required keys are
default-filled.  A parsed non-object makes the required-key loop raise a
`TypeError`, caught by the outer handler (`none`) — except for a parsed
string that already contains every required key as a substring, which the
loop leaves untouched and returns.  On `JSONDecodeError` the first
`{...}` span is extracted and parsed, and its value returned *as parsed*;
if that also fails, the degraded record is synthesized from the raw text. -/
def normalize (responseText : String) : Option JValue :=
  let clean := stripFences responseText
  match jparse clean with
  | some (.obj kvs) => some (.obj (fillRequired kvs))
  | some (.str s) =>
    if requiredKeys.all (fun k => pyContains s k) then some (.str s) else none
  | some _ => none
  | none =>
    match extractSpan clean with
    | some span =>
      match jparse span with
      | some v => some v
      | none => some (degradedRecord responseText)
    | none => some (degradedRecord responseText)

/-- `generate_gemini_summary` (V1): `none` models a missing API key, a
raising backend call (network failure / non-2xx), or an empty response
body; otherwise the response text is normalized.  Every failure is caught
and converted to `None` — the function is total and never raises. -/
def generate_gemini_summary (apiKey : Option String) (callResult : Option String) :
    Option JValue :=
  match apiKey with
  | none => none
  | some _ =>
    match callResult with
    | none => none
    | some t => if t = "" then none else normalize t

end V1

namespace V2

/-! ## `src/voice_to_notes_V2/voice_to_notes.py` -/

/-- The prompt sent by V2's `generate_gemini_summary` (lines 139-168): the
same fixed template, but the transcript is embedded *without any
truncation*. -/
def promptFor (text : String) : String :=
  geminiPromptPrefix ++ text ++ geminiPromptSuffix

/-- Fence stripping in V2 (lines 186-193): like V1 but with no final
whitespace strip (the subsequent `json.loads` tolerates surrounding
whitespace). -/
def stripFences (text : String) : String :=
  let c1 := pyStrip text
  let c2 :=
    if pyStartsWith c1 "```json" then pyDrop c1 7
    else if pyStartsWith c1 "```" then pyDrop c1 3
    else c1
  if pyEndsWith c2 "```" then pyDropRight c2 3 else c2

/-- The V2 response normalizer (lines 186-206): direct parse only, with
required-key default fill on a parsed object.  There is no span-extraction
fallback and no degraded record: any parse failure raises, is caught by the
surrounding `except`, and becomes `None`.  (The parsed-string edge case is
as in V1: the required-key loop raises unless every key occurs as a
substring.) -/
def normalize (responseText : String) : Option JValue :=
  match jparse (stripFences responseText) with
  | some (.obj kvs) => some (.obj (fillRequired kvs))
  | some (.str s) =>
    if requiredKeys.all (fun k => pyContains s k) then some (.str s) else none
  | some _ => none
  | none => none

/-- `generate_gemini_summary` (V2): missing API key or a raising call gives
`None`; otherwise the response text is normalized (an empty body fails the
parse and also yields `None`). -/
def generate_gemini_summary (apiKey : Option String) (callResult : Option String) :
    Option JValue :=
  match apiKey with
  | none => none
  | some _ =>
    match callResult with
    | none => none
    | some t => normalize t

end V2

/-! ### Basic string lemmas -/

theorem strData_append (s t : String) : (s ++ t).data = s.data ++ t.data := rfl

theorem strAppend_empty (s : String) : s ++ "" = s :=
  congrArg String.mk (List.append_nil s.data)

theorem pyTake_of_le (s : String) (n : Nat) (h : pyLen s ≤ n) : pyTake s n = s :=
  congrArg String.mk (List.take_of_length_le h)

/-! ### Lemmas about the required-key fill -/

/-- Looking up a key found in the left part of an appended dict. -/
theorem getKey_append_some {kvs l : List (String × JValue)} {k : String} {v : JValue}
    (h : getKey kvs k = some v) : getKey (kvs ++ l) k = some v := by
  induction kvs with
  | nil => simp [getKey] at h
  | cons p rest ih =>
    obtain ⟨k', v'⟩ := p
    by_cases hk : k' = k
    · simpa [getKey, hk] using by simpa [getKey, hk] using h
    · simp only [getKey, hk, List.cons_append, if_false] at h ⊢
      exact ih h

/-- Looking up a key absent from the left part of an appended dict. -/
theorem getKey_append_none {kvs l : List (String × JValue)} {k : String}
    (h : getKey kvs k = none) : getKey (kvs ++ l) k = getKey l k := by
  induction kvs with
  | nil => rfl
  | cons p rest ih =>
    obtain ⟨k', v'⟩ := p
    by_cases hk : k' = k
    · simp [getKey, hk] at h
    · simp only [getKey, hk, List.cons_append, if_false] at h ⊢
      exact ih h

/-- The step function of `fillRequired`, named for the lemmas below. -/
def fillStep (acc : List (String × JValue)) (k : String) : List (String × JValue) :=
  if (getKey acc k).isSome then acc else acc ++ [(k, JValue.arr [])]

theorem fillRequired_eq_foldl (kvs : List (String × JValue)) :
    fillRequired kvs = requiredKeys.foldl fillStep kvs := rfl

/-- A key already present keeps its value through the whole fill. -/
theorem fillFold_preserves (ks : List String) (kvs : List (String × JValue))
    (k : String) (v : JValue) (h : getKey kvs k = some v) :
    getKey (ks.foldl fillStep kvs) k = some v := by
  induction ks generalizing kvs with
  | nil => exact h
  | cons k' ks ih =>
    simp only [List.foldl_cons]
    unfold fillStep
    by_cases hs : (getKey kvs k').isSome
    · simpa [hs] using ih kvs h
    · simp only [hs, if_false]
      exact ih _ (getKey_append_some h)

/-- A required key absent from the input dict ends up bound to the empty
list. -/
theorem fillFold_absent (ks : List String) (kvs : List (String × JValue))
    (k : String) (hmem : k ∈ ks) (habs : getKey kvs k = none) :
    getKey (ks.foldl fillStep kvs) k = some (JValue.arr []) := by
  induction ks generalizing kvs with
  | nil => cases hmem
  | cons k' ks ih =>
    simp only [List.foldl_cons]
    by_cases hk : k' = k
    · subst hk
      unfold fillStep
      simp only [habs, Option.isSome_none, Bool.false_eq_true, if_false]
      refine fillFold_preserves ks _ k' (JValue.arr []) ?_
      rw [getKey_append_none habs]
      simp [getKey]
    · have hmem' : k ∈ ks := by
        rcases List.mem_cons.mp hmem with h | h
        · exact absurd h.symm hk
        · exact h
      unfold fillStep
      by_cases hs : (getKey kvs k').isSome
      · simpa [hs] using ih _ hmem' habs
      · rw [if_neg hs]
        refine ih _ hmem' ?_
        rw [getKey_append_none habs]
        simp [getKey, hk]

/-- After the fill, every listed key is bound: to its original value when
present, to the empty list when absent. -/
theorem fillFold_getD (ks : List String) (kvs : List (String × JValue))
    (k : String) (hmem : k ∈ ks) :
    getKey (ks.foldl fillStep kvs) k = some ((getKey kvs k).getD (JValue.arr [])) := by
  cases h : getKey kvs k with
  | none => simpa [h] using fillFold_absent ks kvs k hmem h
  | some v => simpa [h] using fillFold_preserves ks kvs k v h

/-- Completeness of a filled dict relative to its source: each of the seven
required fields is present, holding the parsed value when the source had the
key and the empty-list default otherwise. -/
def fillComplete (orig filled : List (String × JValue)) : Prop :=
  ∀ k ∈ requiredKeys, getKey filled k = some ((getKey orig k).getD (JValue.arr []))

theorem fillRequired_complete (kvs : List (String × JValue)) :
    fillComplete kvs (fillRequired kvs) :=
  fun k hk => fillFold_getD requiredKeys kvs k hk

/-! ### Claims C1, C2 — the response normalizer -/

/-- C1 counterexample.  The claim asserts that a parse via the extracted
`{...}` span also yields a record with all seven required fields filled in.
In V1 the extraction path returns the parsed object as-is: for the backend
response `foo {"a": 1} bar` the normalizer returns the object `{"a": 1}`,
which lacks `resumen_ejecutivo` (and every other required field). -/
theorem c1_counterexample :
    V1.normalize "foo \x7b\"a\": 1\x7d bar" = some (JValue.obj [("a", JValue.num 1)]) ∧
    getKey [("a", JValue.num 1)] "resumen_ejecutivo" = none :=
  ⟨rfl, rfl⟩

/-- C1 (amended): whenever the *direct* parse of the fence-stripped response
text yields a JSON object, both normalizers return that object with every
one of the seven required fields present — original values kept, absent
fields inserted as empty-list defaults.  (The V1 span-extraction path
instead returns the extracted object as parsed, without the default fill.) -/
theorem c1_direct_parse_fills_required_fields :
    ∀ (t : String) (kvs kvs2 : List (String × JValue)),
    jparse (V1.stripFences t) = some (JValue.obj kvs) →
    jparse (V2.stripFences t) = some (JValue.obj kvs2) →
    V1.normalize t = some (JValue.obj (fillRequired kvs)) ∧
    V2.normalize t = some (JValue.obj (fillRequired kvs2)) ∧
    fillComplete kvs (fillRequired kvs) ∧
    fillComplete kvs2 (fillRequired kvs2) := by
  intro t kvs kvs2 h1 h2
  refine ⟨?_, ?_, fillRequired_complete kvs, fillRequired_complete kvs2⟩
  · unfold V1.normalize
    simp only [h1]
  · unfold V2.normalize
    simp only [h2]

/-- C1 witness: the fenced response from the spec's test vector, parsed on
the direct path by both variants. -/
theorem c1_witness :
    V1.normalize "```json\n\x7b\"resumen_ejecutivo\": \"x\"\x7d\n```" =
      some (JValue.obj (fillRequired [("resumen_ejecutivo", JValue.str "x")])) ∧
    V2.normalize "```json\n\x7b\"resumen_ejecutivo\": \"x\"\x7d\n```" =
      some (JValue.obj (fillRequired [("resumen_ejecutivo", JValue.str "x")])) ∧
    fillComplete [("resumen_ejecutivo", JValue.str "x")]
      (fillRequired [("resumen_ejecutivo", JValue.str "x")]) ∧
    fillComplete [("resumen_ejecutivo", JValue.str "x")]
      (fillRequired [("resumen_ejecutivo", JValue.str "x")]) :=
  c1_direct_parse_fills_required_fields _ _ _ rfl rfl

/-- C2 counterexample.  The claim covers both cited variants, but when every
parse attempt fails the V2 normalizer returns a null result — not a degraded
record whose executive summary holds a prefix of the raw response. -/
theorem c2_counterexample :
    V2.normalize "Respuesta sin formato JSON" = none := rfl

/-- C2 (amended): on a response where every JSON parsing attempt fails, the
V1 normalizer synthesizes the degraded record — executive summary the first
800 characters of the raw response with a `"..."` marker exactly when the
response was longer, the other six fields fixed placeholders — and never
propagates the parse failure (it is total and returns `some`); the V2
normalizer instead absorbs the failure into a null result. -/
theorem c2_degraded_record_on_parse_failure :
    ∀ t : String,
    jparse (V1.stripFences t) = none →
    (V1.extractSpan (V1.stripFences t)).bind jparse = none →
    jparse (V2.stripFences t) = none →
    V1.normalize t = some (JValue.obj (V1.degradedMembers t)) ∧
    getKey (V1.degradedMembers t) "resumen_ejecutivo" =
      some (JValue.str (pyTake t 800 ++ (if 800 < pyLen t then "..." else ""))) ∧
    V2.normalize t = none := by
  intro t h1 h2 h3
  refine ⟨?_, ?_, ?_⟩
  · unfold V1.normalize
    simp only [h1]
    cases hs : V1.extractSpan (V1.stripFences t) with
    | none => simp [hs, V1.degradedRecord]
    | some span =>
      have hp : jparse span = none := by simpa [hs] using h2
      simp [hs, hp, V1.degradedRecord]
  · by_cases h : 800 < pyLen t
    · simp [V1.degradedMembers, getKey, h]
    · simp [V1.degradedMembers, getKey, h,
        pyTake_of_le t 800 (by omega), strAppend_empty]
  · unfold V2.normalize
    simp only [h3]

/-- C2 witness: a plain-prose response with no JSON anywhere. -/
theorem c2_witness :
    V1.normalize "Respuesta sin JSON" =
      some (JValue.obj (V1.degradedMembers "Respuesta sin JSON")) ∧
    getKey (V1.degradedMembers "Respuesta sin JSON") "resumen_ejecutivo" =
      some (JValue.str (pyTake "Respuesta sin JSON" 800 ++
        (if 800 < pyLen "Respuesta sin JSON" then "..." else ""))) ∧
    V2.normalize "Respuesta sin JSON" = none :=
  c2_degraded_record_on_parse_failure _ rfl rfl rfl

/-! ### Claims C3, C6 — the summarization client -/

/-- C3 counterexample.  The claim covers both cited variants, but V2 embeds
the transcript in the prompt with no truncation at all: a 12001-character
transcript is sent whole. -/
theorem c3_counterexample :
    V2.promptFor (String.mk (List.replicate 12001 'a')) =
      geminiPromptPrefix ++ String.mk (List.replicate 12001 'a') ++ geminiPromptSuffix ∧
    12000 < pyLen (String.mk (List.replicate 12001 'a')) :=
  ⟨rfl, by
    show 12000 < (List.replicate 12001 'a').length
    rw [List.length_replicate]
    omega⟩

/-- C3 (amended): the V1 client embeds at most the first 12,000 characters
of the transcript — the embedded text is the 12,000-character prefix, with
the truncation marker appended exactly when the transcript was longer — but
the V2 client embeds the whole transcript unbounded. -/
theorem c3_truncation_only_in_v1 :
    ∀ t : String,
    V1.promptFor t = geminiPromptPrefix ++ V1.truncateInput t ++ geminiPromptSuffix ∧
    V1.truncateInput t =
      pyTake t 12000 ++
        (if 12000 < pyLen t then "...\n[TEXTO TRUNCADO PARA ANÁLISIS]" else "") ∧
    pyLen (V1.truncateInput t) ≤ 12000 + pyLen "...\n[TEXTO TRUNCADO PARA ANÁLISIS]" ∧
    V2.promptFor t = geminiPromptPrefix ++ t ++ geminiPromptSuffix := by
  intro t
  refine ⟨rfl, ?_, ?_, rfl⟩
  · unfold V1.truncateInput
    by_cases h : 12000 < pyLen t
    · simp [h]
    · simp [h, pyTake_of_le t 12000 (by omega), strAppend_empty]
  · unfold V1.truncateInput
    by_cases h : 12000 < pyLen t
    · simp only [h, if_true]
      have : pyLen (pyTake t 12000 ++ "...\n[TEXTO TRUNCADO PARA ANÁLISIS]") =
          (t.data.take 12000).length + pyLen "...\n[TEXTO TRUNCADO PARA ANÁLISIS]" := by
        simp [pyLen, pyTake, strData_append]
      rw [this, List.length_take]
      omega
    · simp only [h, if_false]
      unfold pyLen at h ⊢
      omega

/-! C6: every backend failure mode — missing API key, raising call (network
failure or non-2xx status), empty response body — makes both clients return
a null result; the functions are total, so no exception reaches the caller. -/

/-- C6: the summarization clients return `none` on every backend failure
mode (no API key, failed/raising call, empty response body), in both
variants, and never raise. -/
theorem c6_backend_failure_returns_null :
    ∀ (k r : Option String),
    V1.generate_gemini_summary none r = none ∧
    V1.generate_gemini_summary k none = none ∧
    V1.generate_gemini_summary k (some "") = none ∧
    V2.generate_gemini_summary none r = none ∧
    V2.generate_gemini_summary k none = none ∧
    V2.generate_gemini_summary k (some "") = none := by
  intro k r
  cases k <;> exact ⟨rfl, rfl, rfl, rfl, rfl, rfl⟩

/-! ### Claim C4 — the audio segmenter (`fragment_audio`, V2 lines 29-50) -/

namespace V2

/-- `fragment_audio`, modelled at the level of chunk durations in
milliseconds (`len(audio)` is the duration in ms, and the slice
`audio[start:end]` with `end ≤ duration` has duration `end - start`): one
chunk for at most ten minutes, otherwise four chunks cut at multiples of
`duration_ms // 4` with the last chunk running to the end of the file. -/
def fragment_audio_durations (duration_ms : Nat) : List Nat :=
  if duration_ms ≤ 10 * 60 * 1000 then [duration_ms]
  else
    let chunk_len := duration_ms / 4
    (List.range 4).map (fun i =>
      (if i < 3 then (i + 1) * chunk_len else duration_ms) - i * chunk_len)

end V2

/-- C4: a duration of at most ten minutes (inclusive) yields exactly one
chunk covering the whole file; a longer duration yields exactly four
chunks — the first three of length `duration / 4` and the last absorbing
the integer-division remainder — and in both cases the chunk durations sum
exactly to the total duration. -/
theorem c4_fragment_audio_policy :
    ∀ d : Nat,
    V2.fragment_audio_durations d =
      (if d ≤ 10 * 60 * 1000 then [d]
       else [d / 4, d / 4, d / 4, d / 4 + d % 4]) ∧
    (V2.fragment_audio_durations d).sum = d := by
  intro d
  by_cases h : d ≤ 10 * 60 * 1000
  · simp [V2.fragment_audio_durations, h]
  · have hr : List.range 4 = [0, 1, 2, 3] := rfl
    constructor
    · simp only [V2.fragment_audio_durations, h, if_false, hr, List.map_cons,
        List.map_nil, List.cons.injEq, and_true]
      norm_num
      omega
    · simp only [V2.fragment_audio_durations, h, if_false, hr, List.map_cons,
        List.map_nil, List.sum_cons, List.sum_nil]
      norm_num
      omega

/-! ### Claim C5 — concurrent transcription with order-preserving reassembly -/

namespace V2

/-- Model of `transcribe_all_chunks` (V2, lines 66-70) together with the
contract of `asyncio.gather`: one task per chunk is created in chunk-index
order; `chunkTexts` gives the text each chunk's backend call produces (for
a non-200 response this is the inline `[ERROR] ...` marker — the ordering
behaviour is the same); `arrival` is the order in which the concurrent
responses complete.  Each completing task fills the result slot of its own
chunk index, and `gather` returns the slots in task order only after every
slot has been filled (it waits for all tasks). -/
def transcribe_all_chunks (chunkTexts : List String) (arrival : List Nat) :
    List String :=
  let slots : List (Option String) := List.replicate chunkTexts.length none
  let filled :=
    arrival.foldl (fun acc i => acc.set i (some (chunkTexts.getD i ""))) slots
  filled.map (fun o => o.getD "")

/-- `full_text = "\n\n".join(transcriptions)` (V2, line 228). -/
def assemble_full_text (transcriptions : List String) : String :=
  pyJoin "\n\n" transcriptions

end V2

/-- The slot-filling fold preserves the number of slots. -/
theorem gatherFold_length (texts : List String) (l : List Nat)
    (acc : List (Option String)) :
    (l.foldl (fun a j => a.set j (some (texts.getD j ""))) acc).length =
      acc.length := by
  induction l generalizing acc with
  | nil => rfl
  | cons j l ih =>
    simp only [List.foldl_cons]
    rw [ih]
    exact List.length_set acc j _

/-- A slot whose index never arrives is left unchanged. -/
theorem gatherFold_not_mem (texts : List String) (l : List Nat)
    (acc : List (Option String)) (i : Nat) (h : i ∉ l) :
    (l.foldl (fun a j => a.set j (some (texts.getD j ""))) acc)[i]? = acc[i]? := by
  induction l generalizing acc with
  | nil => rfl
  | cons j l ih =>
    have hj : j ≠ i := fun e => h (e ▸ List.mem_cons_self j l)
    have hi : i ∉ l := fun m => h (List.mem_cons_of_mem j m)
    simp only [List.foldl_cons]
    rw [ih _ hi, List.getElem?_set_ne hj]

/-- A slot whose index arrives at least once ends up holding that chunk's
text. -/
theorem gatherFold_mem (texts : List String) (l : List Nat)
    (acc : List (Option String)) (i : Nat) (hlen : i < acc.length)
    (hmem : i ∈ l) :
    (l.foldl (fun a j => a.set j (some (texts.getD j ""))) acc)[i]? =
      some (some (texts.getD i "")) := by
  induction l generalizing acc with
  | nil => cases hmem
  | cons j l ih =>
    simp only [List.foldl_cons]
    by_cases hil : i ∈ l
    · exact ih _ (by rw [List.length_set]; exact hlen) hil
    · have hj : j = i := by
        rcases List.mem_cons.mp hmem with h | h
        · exact h.symm
        · exact absurd h hil
      subst hj
      rw [gatherFold_not_mem _ _ _ _ hil,
        List.getElem?_set_self (by simpa using hlen)]

/-- C5: for every list of chunk texts and every completion order that is a
permutation of the chunk indices, the client's result list equals the chunk
texts in original index order, and the assembled transcript is the texts
joined in index order. -/
theorem c5_gather_preserves_chunk_order :
    ∀ (chunkTexts : List String) (arrival : List Nat),
    arrival.Perm (List.range chunkTexts.length) →
    V2.transcribe_all_chunks chunkTexts arrival = chunkTexts ∧
    V2.assemble_full_text (V2.transcribe_all_chunks chunkTexts arrival) =
      pyJoin "\n\n" chunkTexts := by
  intro texts arrival hperm
  have hmain : V2.transcribe_all_chunks texts arrival = texts := by
    apply List.ext_getElem?
    intro i
    unfold V2.transcribe_all_chunks
    rw [List.getElem?_map]
    by_cases hi : i < texts.length
    · have hmem : i ∈ arrival := hperm.mem_iff.mpr (List.mem_range.mpr hi)
      rw [gatherFold_mem texts arrival _ i (by simpa using hi) hmem]
      rw [List.getD_eq_getElem?_getD]
      rcases List.getElem?_eq_some_iff.mpr ⟨hi, rfl⟩ with _
      simp [List.getElem?_eq_getElem hi]
    · have h1 :
          (arrival.foldl (fun a j => a.set j (some (texts.getD j "")))
            (List.replicate texts.length none))[i]? = none := by
        apply List.getElem?_eq_none
        rw [gatherFold_length]
        simpa using Nat.le_of_not_lt hi
      rw [h1, List.getElem?_eq_none (Nat.le_of_not_lt hi)]
      rfl
  refine ⟨hmain, ?_⟩
  rw [hmain]
  rfl

/-- C5 witness: three chunks completing in the order 2, 0, 1 still assemble
in index order. -/
theorem c5_witness :
    V2.transcribe_all_chunks ["a", "b", "c"] [2, 0, 1] = ["a", "b", "c"] ∧
    V2.assemble_full_text (V2.transcribe_all_chunks ["a", "b", "c"] [2, 0, 1]) =
      pyJoin "\n\n" ["a", "b", "c"] :=
  c5_gather_preserves_chunk_order ["a", "b", "c"] [2, 0, 1] (by decide)

/-! ### The summary record handed to the renderers -/

/-- The summary dict consumed by the note renderers: seven named fields,
`none` modelling a key missing from the dict (the renderers read every
field with `.get` and a default). -/
structure SummaryRecord where
  resumen_ejecutivo : Option String
  puntos_clave : Option (List String)
  conceptos_importantes : Option (List String)
  preguntas_dudas : Option (List String)
  tareas_acciones : Option (List String)
  detalles_adicionales : Option (List String)
  estructura_contenido : Option (List String)

/-! ### Claim C7 — the fallback summarizer (`generate_basic_summary`, V1) -/

namespace V1

/-- Fragments of one line:
`[s.strip() for s in line.split('.') if s.strip()]` (V1, line 136). -/
def lineFragments (line : String) : List String :=
  ((pySplit line '.').map pyStrip).filter (fun s => ¬ (s = ""))

/-- The sentence list built by `generate_basic_summary` (V1, lines
132-136): split into lines, and for each non-blank line extend with its
period-separated fragments. -/
def basicSentences (text : String) : List String :=
  (pySplit text '\n').foldl
    (fun acc line => if pyStrip line = "" then acc else acc ++ lineFragments line)
    []

/-- `generate_basic_summary` (V1, lines 127-156): offline fallback summary.
The executive summary joins the first `min(5, len(sentences))` fragments
with `". "` and appends `"."`; the other six fields are fixed placeholders,
one of which reports the transcript's character count. -/
def generate_basic_summary (text : String) : SummaryRecord :=
  let sentences := basicSentences text
  let max_sentences := min 5 sentences.length
  let summary_sentences := sentences.take max_sentences
  { resumen_ejecutivo := some (pyJoin ". " summary_sentences ++ "."),
    puntos_clave := some
      ["Transcripción automática procesada",
       "Análisis básico sin IA externa",
       "Texto de " ++ toString (pyLen text) ++ " caracteres procesado"],
    conceptos_importantes := some ["Audio transcrito", "Procesamiento local"],
    preguntas_dudas := some [],
    tareas_acciones := some
      ["Revisar transcripción completa",
       "Configurar acceso a Gemini para análisis avanzado"],
    detalles_adicionales := some [],
    estructura_contenido := some [] }

end V1

/-- C7: for every transcript, the fallback summarizer's executive summary is
the first at-most-five sentence fragments of the document (lines split on
newlines, non-blank lines split on periods) joined with `". "` and ending in
`"."`, and the six remaining fields are the fixed placeholder entries, one
reporting the transcript's character count. -/
theorem c7_fallback_summary_shape :
    ∀ text : String,
    (V1.generate_basic_summary text).resumen_ejecutivo =
      some (pyJoin ". " ((V1.basicSentences text).take 5) ++ ".") ∧
    ((V1.basicSentences text).take 5).length ≤ 5 ∧
    (V1.generate_basic_summary text).puntos_clave =
      some ["Transcripción automática procesada", "Análisis básico sin IA externa",
        "Texto de " ++ toString (pyLen text) ++ " caracteres procesado"] ∧
    (V1.generate_basic_summary text).conceptos_importantes =
      some ["Audio transcrito", "Procesamiento local"] ∧
    (V1.generate_basic_summary text).preguntas_dudas = some [] ∧
    (V1.generate_basic_summary text).tareas_acciones =
      some ["Revisar transcripción completa",
        "Configurar acceso a Gemini para análisis avanzado"] ∧
    (V1.generate_basic_summary text).detalles_adicionales = some [] ∧
    (V1.generate_basic_summary text).estructura_contenido = some [] := by
  intro t
  have htake :
      (V1.basicSentences t).take (min 5 (V1.basicSentences t).length) =
        (V1.basicSentences t).take 5 := by
    rcases Nat.le_total 5 (V1.basicSentences t).length with h | h
    · rw [Nat.min_eq_left h]
    · rw [Nat.min_eq_right h, List.take_length, List.take_of_length_le h]
  refine ⟨?_, ?_, rfl, rfl, rfl, rfl, rfl, rfl⟩
  · show some (pyJoin ". "
        ((V1.basicSentences t).take (min 5 (V1.basicSentences t).length)) ++ ".") = _
    rw [htake]
  · rw [List.length_take]
    omega

/-! ### Claim C8 — the summary-only note renderers -/

/-- `Path(p).stem` for ordinary filenames: the final path component without
its last extension. -/
def pathStem (p : String) : String :=
  let base := (pySplit p '/').getLastD ""
  let parts := pySplit base '.'
  if parts.length ≤ 1 then base else pyJoin "." (parts.dropLast)

/-- Python `enumerate(xs, 1)`. -/
def enumFrom1 (l : List String) : List (Nat × String) :=
  l.enum.map (fun p => (p.1 + 1, p.2))

namespace V1

/-- `get_available_gemini_models` (V1, lines 100-125), reduced to the
`description` strings (the renderer reads only these; the numeric
generation parameters are not used by any claim). -/
def modelDescription (m : String) : Option String :=
  if m = "gemini-1.5-flash" then
    some "Gemini 1.5 Flash - Modelo rápido y eficiente (recomendado)"
  else if m = "gemini-1.5-pro" then
    some "Gemini 1.5 Pro - Modelo avanzado con más contexto"
  else if m = "gemini-pro" then
    some "Gemini Pro - Modelo básico (puede no estar disponible)"
  else if m = "gemini-2.0-flash" then
    some "Gemini 2.0 Flash - Modelo más reciente (experimental)"
  else none

/-- The metadata header of the summary note (first part of the opening
f-string, V1 lines 326-335). -/
def summaryMetaBlock (fn d t m : String) : String :=
  "# Resumen de Clase - " ++ pathStem fn ++ "\n\n## Metadatos\n- **Fecha:** " ++ d ++
  "\n- **Hora:** " ++ t ++ "\n- **Archivo original:** " ++ fn ++
  "\n- **Procesado con:** Whisper (OpenAI) + Google Gemini\n- **Modelo IA:** " ++ m ++
  " (" ++ (modelDescription m).getD m ++
  ")\n- **Tipo:** Resumen detallado (sin transcripción)\n\n"

/-- The always-rendered executive-summary section (rest of the opening
f-string, V1 lines 336-339). -/
def resumenBlock (g : SummaryRecord) : String :=
  "## Resumen Ejecutivo\n" ++ g.resumen_ejecutivo.getD "No disponible" ++ "\n\n"

/-- Numbered key-points section (V1 lines 342-346). -/
def puntosBlock (ps : List String) : String :=
  "## Puntos Clave Principales\n" ++
    concatAll ((enumFrom1 ps).map (fun p => toString p.1 ++ ". " ++ p.2 ++ "\n")) ++ "\n"

/-- One bullet of the concepts section, splitting `name: description`
entries (V1 lines 350-355). -/
def conceptoLine (c : String) : String :=
  match pySplitOnce c ':' with
  | some (nm, desc) => "- **" ++ pyStrip nm ++ ":** " ++ pyStrip desc ++ "\n"
  | none => "- **" ++ c ++ "**\n"

/-- Concepts section (V1 lines 348-356). -/
def conceptosBlock (cs : List String) : String :=
  "## Conceptos Importantes\n" ++ concatAll (cs.map conceptoLine) ++ "\n"

/-- Questions section (V1 lines 358-362). -/
def preguntasBlock (qs : List String) : String :=
  "## Preguntas y Dudas\n" ++ concatAll (qs.map (fun q => "❓ " ++ q ++ "\n")) ++ "\n"

/-- Action-item checkboxes section (V1 lines 364-368). -/
def tareasBlock (ts : List String) : String :=
  "## Tareas y Acciones\n" ++ concatAll (ts.map (fun x => "- [ ] " ++ x ++ "\n")) ++ "\n"

/-- Additional-details section (V1 lines 370-374). -/
def detallesBlock (ds : List String) : String :=
  "## Detalles Adicionales\n" ++ concatAll (ds.map (fun x => "💡 " ++ x ++ "\n")) ++ "\n"

/-- One numbered line of the content-structure section (V1 lines 378-383). -/
def temaLine (p : Nat × String) : String :=
  match pySplitOnce p.2 ':' with
  | some (nm, desc) =>
    toString p.1 ++ ". **" ++ pyStrip nm ++ ":** " ++ pyStrip desc ++ "\n"
  | none => toString p.1 ++ ". " ++ p.2 ++ "\n"

/-- Content-structure section (V1 lines 376-384). -/
def estructuraBlock (es : List String) : String :=
  "## Estructura del Contenido\n" ++ concatAll ((enumFrom1 es).map temaLine) ++ "\n"

/-- The fixed footer: tags, two follow-up checklists, and the provenance
stamp with model name and timestamp (V1 lines 387-410). -/
def summaryFooterBlock (d t m : String) : String :=
  "---\n\n## Tags\n#resumen #clase #notas #audio #whisper #google-gemini #ai-summary #" ++
  pyRemoveDashes m ++
  "\n\n## Notas Adicionales\n- [ ] Revisar y ampliar puntos clave\n- [ ] Agregar enlaces a conceptos relacionados usando [[concepto]]\n- [ ] Crear mapas conceptuales basados en la estructura\n- [ ] Verificar tareas y fechas importantes\n- [ ] Conectar con notas de clases anteriores\n- [ ] Consultar transcripción completa si es necesario\n\n## Referencias y Seguimiento\n- [ ] Buscar material complementario sobre conceptos mencionados\n- [ ] Preparar preguntas para próxima clase basadas en dudas identificadas\n- [ ] Revisar bibliografía relacionada con los temas tratados\n- [ ] Actualizar cronograma de estudios con las tareas identificadas\n\n---\n*Resumen generado automáticamente con Voice Note Processor + Google Gemini*\n*Modelo usado: " ++
  m ++ " (" ++ (modelDescription m).getD m ++ ")*\n*Procesado el " ++ d ++
  " a las " ++ t ++ "*\n"

/-- `create_obsidian_summary_only` (V1, lines 314-420), as the rendered
markdown string (the file write is modelled by the pipeline's write-success
flag).  The opening f-string always renders metadata and the executive
summary; each list-valued section is appended only when its field is
non-empty; the fixed footer always follows. -/
def create_obsidian_summary_only (g : SummaryRecord) (fn d t m : String) : String :=
  let base :=
    "# Resumen de Clase - " ++ pathStem fn ++ "\n\n## Metadatos\n- **Fecha:** " ++ d ++
    "\n- **Hora:** " ++ t ++ "\n- **Archivo original:** " ++ fn ++
    "\n- **Procesado con:** Whisper (OpenAI) + Google Gemini\n- **Modelo IA:** " ++ m ++
    " (" ++ (modelDescription m).getD m ++
    ")\n- **Tipo:** Resumen detallado (sin transcripción)\n\n## Resumen Ejecutivo\n" ++
    g.resumen_ejecutivo.getD "No disponible" ++ "\n\n"
  let c1 := if g.puntos_clave.getD [] ≠ [] then
      base ++ puntosBlock (g.puntos_clave.getD []) else base
  let c2 := if g.conceptos_importantes.getD [] ≠ [] then
      c1 ++ conceptosBlock (g.conceptos_importantes.getD []) else c1
  let c3 := if g.preguntas_dudas.getD [] ≠ [] then
      c2 ++ preguntasBlock (g.preguntas_dudas.getD []) else c2
  let c4 := if g.tareas_acciones.getD [] ≠ [] then
      c3 ++ tareasBlock (g.tareas_acciones.getD []) else c3
  let c5 := if g.detalles_adicionales.getD [] ≠ [] then
      c4 ++ detallesBlock (g.detalles_adicionales.getD []) else c4
  let c6 := if g.estructura_contenido.getD [] ≠ [] then
      c5 ++ estructuraBlock (g.estructura_contenido.getD []) else c5
  c6 ++ summaryFooterBlock d t m

/-- The section decomposition of the V1 summary note: metadata, the
always-present executive-summary section, each list section exactly when
its field is non-empty, and the fixed footer last. -/
def summarySections (g : SummaryRecord) (fn d t m : String) : List String :=
  [summaryMetaBlock fn d t m, resumenBlock g] ++
  (if g.puntos_clave.getD [] ≠ [] then [puntosBlock (g.puntos_clave.getD [])] else []) ++
  (if g.conceptos_importantes.getD [] ≠ [] then
    [conceptosBlock (g.conceptos_importantes.getD [])] else []) ++
  (if g.preguntas_dudas.getD [] ≠ [] then
    [preguntasBlock (g.preguntas_dudas.getD [])] else []) ++
  (if g.tareas_acciones.getD [] ≠ [] then
    [tareasBlock (g.tareas_acciones.getD [])] else []) ++
  (if g.detalles_adicionales.getD [] ≠ [] then
    [detallesBlock (g.detalles_adicionales.getD [])] else []) ++
  (if g.estructura_contenido.getD [] ≠ [] then
    [estructuraBlock (g.estructura_contenido.getD [])] else []) ++
  [summaryFooterBlock d t m]

end V1

namespace V2

/-- One `- {x}` bullet per list entry (the V2 section loops). -/
def bulletLines (xs : List String) : String :=
  concatAll (xs.map (fun x => "- " ++ x ++ "\n"))

/-- One `- [ ] {x}` checkbox per list entry (V2 tasks loop). -/
def checkboxLines (xs : List String) : String :=
  concatAll (xs.map (fun x => "- [ ] " ++ x ++ "\n"))

/-- The metadata header of the V2 summary note (V2 lines 86-92). -/
def summaryMetaBlock (fn d t m : String) : String :=
  "# Resumen de Clase - " ++ fn ++ "\n\n## Metadatos\n- **Fecha:** " ++ d ++
  "\n- **Hora:** " ++ t ++ "\n- **Archivo original:** " ++ fn ++
  "\n- **Modelo IA:** " ++ m ++ "\n\n"

/-- `create_obsidian_summary_only` (V2, lines 82-124), as the rendered
markdown string.  Every section is rendered unconditionally (there are no
emptiness checks in V2) and there is no footer. -/
def create_obsidian_summary_only (g : SummaryRecord) (fn d t m : String) : String :=
  "# Resumen de Clase - " ++ fn ++ "\n\n## Metadatos\n- **Fecha:** " ++ d ++
  "\n- **Hora:** " ++ t ++ "\n- **Archivo original:** " ++ fn ++
  "\n- **Modelo IA:** " ++ m ++ "\n\n## Resumen Ejecutivo\n" ++
  g.resumen_ejecutivo.getD "No disponible" ++
  "\n\n## Puntos Clave Principales\n" ++
  bulletLines (g.puntos_clave.getD []) ++
  "\n## Conceptos Importantes\n" ++ bulletLines (g.conceptos_importantes.getD []) ++
  "\n## Preguntas y Dudas\n" ++ bulletLines (g.preguntas_dudas.getD []) ++
  "\n## Tareas y Acciones\n" ++ checkboxLines (g.tareas_acciones.getD []) ++
  "\n## Detalles Adicionales\n" ++ bulletLines (g.detalles_adicionales.getD []) ++
  "\n## Estructura del Contenido\n" ++ bulletLines (g.estructura_contenido.getD [])

/-- The section decomposition of the V2 summary note: metadata, then all
seven sections unconditionally, and no footer. -/
def summarySections (g : SummaryRecord) (fn d t m : String) : List String :=
  [summaryMetaBlock fn d t m,
   "## Resumen Ejecutivo\n" ++ g.resumen_ejecutivo.getD "No disponible" ++ "\n\n",
   "## Puntos Clave Principales\n" ++ bulletLines (g.puntos_clave.getD []) ++ "\n",
   "## Conceptos Importantes\n" ++ bulletLines (g.conceptos_importantes.getD []) ++ "\n",
   "## Preguntas y Dudas\n" ++ bulletLines (g.preguntas_dudas.getD []) ++ "\n",
   "## Tareas y Acciones\n" ++ checkboxLines (g.tareas_acciones.getD []) ++ "\n",
   "## Detalles Adicionales\n" ++ bulletLines (g.detalles_adicionales.getD []) ++ "\n",
   "## Estructura del Contenido\n" ++ bulletLines (g.estructura_contenido.getD [])]

end V2

/-! ### Concatenation lemmas for the section decompositions -/

theorem concatAll_append (l1 l2 : List String) :
    concatAll (l1 ++ l2) = concatAll l1 ++ concatAll l2 := by
  induction l1 with
  | nil =>
    show concatAll l2 = "" ++ concatAll l2
    exact (congrArg String.mk rfl : ("" ++ concatAll l2 : String) = concatAll l2).symm
  | cons s l ih =>
    show s ++ concatAll (l ++ l2) = (s ++ concatAll l) ++ concatAll l2
    rw [ih, String.append_assoc]

theorem concatAll_singleton (s : String) : concatAll [s] = s := by
  show s ++ "" = s
  exact strAppend_empty s

theorem concatAll_ite (c : Prop) [Decidable c] (b : String) :
    concatAll (if c then [b] else []) = if c then b else "" := by
  split
  · exact concatAll_singleton b
  · rfl

theorem strAppend_ite (c : Prop) [Decidable c] (a b : String) :
    (if c then a ++ b else a) = a ++ (if c then b else "") := by
  split
  · rfl
  · exact (strAppend_empty a).symm

/-- A record with an empty (but present) key-points list, used to exhibit a
rendered section whose field content is empty. -/
def emptyPuntosRecord : SummaryRecord :=
  { resumen_ejecutivo := none, puntos_clave := some [],
    conceptos_importantes := none, preguntas_dudas := none,
    tareas_acciones := none, detalles_adicionales := none,
    estructura_contenido := none }

set_option maxRecDepth 100000 in
/-- C8 counterexample.  The claim says every section is omitted when its
field's content is empty, but the V2 renderer emits the key-points section
header even though `puntos_clave` is the empty list (V2 renders all
sections unconditionally; V1 likewise always renders the executive-summary
section). -/
theorem c8_counterexample :
    emptyPuntosRecord.puntos_clave = some [] ∧
    pyContains
      (V2.create_obsidian_summary_only emptyPuntosRecord "clase" "2026-10-12"
        "10:00" "gemini-1.5-flash")
      "## Puntos Clave Principales" = true :=
  ⟨rfl, rfl⟩

/-- The V1 summary note is the concatenation of its section blocks. -/
theorem v1_summary_note_eq_sections (g : SummaryRecord) (fn d t m : String) :
    V1.create_obsidian_summary_only g fn d t m =
      concatAll (V1.summarySections g fn d t m) := by
  simp only [V1.create_obsidian_summary_only, V1.summarySections]
  rw [strAppend_ite, strAppend_ite, strAppend_ite, strAppend_ite, strAppend_ite,
    strAppend_ite]
  rw [concatAll_append, concatAll_append, concatAll_append, concatAll_append,
    concatAll_append, concatAll_append, concatAll_append]
  simp only [concatAll_ite, concatAll, strAppend_empty]
  rw [show
    (")\n- **Tipo:** Resumen detallado (sin transcripción)\n\n## Resumen Ejecutivo\n" : String) =
    ")\n- **Tipo:** Resumen detallado (sin transcripción)\n\n" ++ "## Resumen Ejecutivo\n"
    from rfl]
  simp only [V1.summaryMetaBlock, V1.resumenBlock, String.append_assoc, strAppend_empty]

/-- The V2 summary note is the concatenation of its section blocks. -/
theorem v2_summary_note_eq_sections (g : SummaryRecord) (fn d t m : String) :
    V2.create_obsidian_summary_only g fn d t m =
      concatAll (V2.summarySections g fn d t m) := by
  simp only [V2.create_obsidian_summary_only, V2.summarySections, V2.summaryMetaBlock]
  rw [show ("\n\n## Resumen Ejecutivo\n" : String) =
      "\n\n" ++ "## Resumen Ejecutivo\n" from rfl,
    show ("\n\n## Puntos Clave Principales\n" : String) =
      "\n\n" ++ "## Puntos Clave Principales\n" from rfl,
    show ("\n## Conceptos Importantes\n" : String) =
      "\n" ++ "## Conceptos Importantes\n" from rfl,
    show ("\n## Preguntas y Dudas\n" : String) =
      "\n" ++ "## Preguntas y Dudas\n" from rfl,
    show ("\n## Tareas y Acciones\n" : String) =
      "\n" ++ "## Tareas y Acciones\n" from rfl,
    show ("\n## Detalles Adicionales\n" : String) =
      "\n" ++ "## Detalles Adicionales\n" from rfl,
    show ("\n## Estructura del Contenido\n" : String) =
      "\n" ++ "## Estructura del Contenido\n" from rfl]
  simp only [concatAll, strAppend_empty, String.append_assoc]

/-- C8 (amended): the V1 summary note is exactly the concatenation of a
metadata block, an always-present executive-summary section, each of the
six list-valued sections exactly when its field is non-empty, and the fixed
footer (tags, follow-up checklists, provenance stamp with model name and
timestamp) last; the V2 summary note is the concatenation of its metadata
block and all seven sections unconditionally, with no footer. -/
theorem c8_note_section_structure :
    ∀ (g : SummaryRecord) (fn d t m : String),
    V1.create_obsidian_summary_only g fn d t m =
      concatAll (V1.summarySections g fn d t m) ∧
    (V1.summarySections g fn d t m).getLast? = some (V1.summaryFooterBlock d t m) ∧
    (V1.summarySections g fn d t m).head? = some (V1.summaryMetaBlock fn d t m) ∧
    V2.create_obsidian_summary_only g fn d t m =
      concatAll (V2.summarySections g fn d t m) ∧
    (V2.summarySections g fn d t m).length = 8 := by
  intro g fn d t m
  refine ⟨v1_summary_note_eq_sections g fn d t m, ?_, rfl,
    v2_summary_note_eq_sections g fn d t m, rfl⟩
  unfold V1.summarySections
  rw [show
    ([V1.summaryMetaBlock fn d t m, V1.resumenBlock g] ++
      (if g.puntos_clave.getD [] ≠ [] then [V1.puntosBlock (g.puntos_clave.getD [])] else []) ++
      (if g.conceptos_importantes.getD [] ≠ [] then
        [V1.conceptosBlock (g.conceptos_importantes.getD [])] else []) ++
      (if g.preguntas_dudas.getD [] ≠ [] then
        [V1.preguntasBlock (g.preguntas_dudas.getD [])] else []) ++
      (if g.tareas_acciones.getD [] ≠ [] then
        [V1.tareasBlock (g.tareas_acciones.getD [])] else []) ++
      (if g.detalles_adicionales.getD [] ≠ [] then
        [V1.detallesBlock (g.detalles_adicionales.getD [])] else []) ++
      (if g.estructura_contenido.getD [] ≠ [] then
        [V1.estructuraBlock (g.estructura_contenido.getD [])] else []) ++
      [V1.summaryFooterBlock d t m]) =
    ([V1.summaryMetaBlock fn d t m, V1.resumenBlock g] ++
      (if g.puntos_clave.getD [] ≠ [] then [V1.puntosBlock (g.puntos_clave.getD [])] else []) ++
      (if g.conceptos_importantes.getD [] ≠ [] then
        [V1.conceptosBlock (g.conceptos_importantes.getD [])] else []) ++
      (if g.preguntas_dudas.getD [] ≠ [] then
        [V1.preguntasBlock (g.preguntas_dudas.getD [])] else []) ++
      (if g.tareas_acciones.getD [] ≠ [] then
        [V1.tareasBlock (g.tareas_acciones.getD [])] else []) ++
      (if g.detalles_adicionales.getD [] ≠ [] then
        [V1.detallesBlock (g.detalles_adicionales.getD [])] else []) ++
      (if g.estructura_contenido.getD [] ≠ [] then
        [V1.estructuraBlock (g.estructura_contenido.getD [])] else [])) ++
      [V1.summaryFooterBlock d t m] from by simp [List.append_assoc]]
  exact List.getLast?_concat _

/-! ### Claim C9 — the V1 pipeline driver -/

namespace V1

/-- Paragraphs of the transcription note:
`[p.strip() for p in text_content.split('\n') if p.strip()]` (V1, line 430). -/
def transcriptionParagraphs (text : String) : List String :=
  ((pySplit text '\n').map pyStrip).filter (fun p => ¬ (p = ""))

/-- `create_obsidian_transcription_only` (V1, lines 422-486), as the
rendered markdown string: metadata (with character and paragraph counts),
one numbered section per paragraph longer than 30 characters (numbering
counts all paragraphs), and a fixed footer. -/
def create_obsidian_transcription_only (text fn d t : String) : String :=
  let paragraphs := transcriptionParagraphs text
  "# Transcripción de Clase - " ++ pathStem fn ++ "\n\n## Metadatos\n- **Fecha:** " ++
  d ++ "\n- **Hora:** " ++ t ++ "\n- **Archivo original:** " ++ fn ++
  "\n- **Procesado con:** Whisper (OpenAI)\n- **Tipo:** Transcripción completa (sin resumen)\n- **Longitud:** " ++
  toString (pyLen text) ++ " caracteres\n- **Párrafos:** " ++
  toString paragraphs.length ++ " secciones\n\n## Transcripción Completa\n\n" ++
  concatAll ((enumFrom1 paragraphs).map (fun p =>
    if 30 < pyLen p.2 then
      "### Sección " ++ toString p.1 ++ "\n\n" ++ p.2 ++ "\n\n"
    else "")) ++
  "---\n\n## Tags\n#transcripcion #clase #notas #audio #whisper #texto-completo\n\n## Notas para Edición\n- [ ] Revisar y corregir errores de transcripción\n- [ ] Añadir puntuación donde sea necesario\n- [ ] Identificar términos técnicos para crear enlaces [[concepto]]\n- [ ] Marcar secciones importantes con **texto en negrita**\n- [ ] Agregar > citas donde sea relevante\n- [ ] Crear índice de temas si es necesario\n\n## Sugerencias de Uso\n- [ ] Usar esta transcripción junto con el resumen generado\n- [ ] Buscar términos específicos con Cmd+F / Ctrl+F\n- [ ] Extraer citas textuales importantes\n- [ ] Identificar ejemplos específicos mencionados\n\n---\n*Transcripción generada automáticamente con Voice Note Processor*\n*Procesado el " ++
  d ++ " a las " ++ t ++ "*\n"

/-- Outcome of `process_voice_note_gemini` after a successful transcription
(V1, lines 520-565). -/
structure RunResult where
  usedSummary : SummaryRecord
  summaryDoc : String
  transcriptionDoc : String
  summaryWritten : Bool
  transcriptionWritten : Bool
  success : Bool

/-- `process_voice_note_gemini` after a successful transcription (V1, lines
520-565).  `checkOk` models the result of `check_gemini_access()`;
`clientResult` what `generate_gemini_summary` returned; when the client
yields no record the fallback summarizer is invoked.  Both markdown notes
are rendered (total functions — rendering cannot raise); the two write-ok
flags model the renderers' guarded file writes.  The run succeeds exactly
when the success count (the two guarded writes plus the always-present
plain transcript) reaches two. -/
def process_voice_note_gemini (text : String) (checkOk : Bool)
    (clientResult : Option SummaryRecord) (fn d t m : String)
    (summaryWriteOk transcriptionWriteOk : Bool) : RunResult :=
  let fromClient := if checkOk then clientResult else none
  let used :=
    match fromClient with
    | none => generate_basic_summary text
    | some s => s
  let successCount :=
    (if summaryWriteOk then 1 else 0) + (if transcriptionWriteOk then 1 else 0) + 1
  { usedSummary := used,
    summaryDoc := create_obsidian_summary_only used fn d t m,
    transcriptionDoc := create_obsidian_transcription_only text fn d t,
    summaryWritten := summaryWriteOk,
    transcriptionWritten := transcriptionWriteOk,
    success := decide (2 ≤ successCount) }

/-- `main` (V1, lines 639-646): process exit code 0 on reported success,
1 otherwise (`sys.exit(1)`). -/
def mainExitCode (success : Bool) : Nat := if success then 0 else 1

end V1

/-- How many of the three expected output files were produced: the plain
transcript always exists once transcription succeeded; each markdown note
exactly when its write succeeded. -/
def producedCount (summaryWriteOk transcriptionWriteOk : Bool) : Nat :=
  ([true, summaryWriteOk, transcriptionWriteOk].filter (fun b => b)).length

/-- C9: whenever the summarization client yields no record after a
successful transcription (failed access check or null client result), the
V1 pipeline uses the fallback summarizer's record, still renders both
markdown notes from it (rendering is total), reports success exactly when
at least two of the three expected output files were produced, and exits
non-zero otherwise. -/
theorem c9_fallback_and_success_rule :
    ∀ (text : String) (checkOk : Bool) (clientResult : Option SummaryRecord)
      (fn d t m : String) (sOk tOk : Bool),
    (if checkOk then clientResult else none) = none →
    (V1.process_voice_note_gemini text checkOk clientResult fn d t m sOk tOk).usedSummary =
      V1.generate_basic_summary text ∧
    (V1.process_voice_note_gemini text checkOk clientResult fn d t m sOk tOk).summaryDoc =
      V1.create_obsidian_summary_only (V1.generate_basic_summary text) fn d t m ∧
    (V1.process_voice_note_gemini text checkOk clientResult fn d t m sOk tOk).transcriptionDoc =
      V1.create_obsidian_transcription_only text fn d t ∧
    ((V1.process_voice_note_gemini text checkOk clientResult fn d t m sOk tOk).success = true ↔
      2 ≤ producedCount sOk tOk) ∧
    V1.mainExitCode (V1.process_voice_note_gemini text checkOk clientResult fn d t m sOk tOk).success =
      (if 2 ≤ producedCount sOk tOk then 0 else 1) := by
  intro text cOk r fn d t m sOk tOk h
  refine ⟨?_, ?_, ?_, ?_, ?_⟩
  · simp only [V1.process_voice_note_gemini, h]
  · simp only [V1.process_voice_note_gemini, h]
  · simp only [V1.process_voice_note_gemini, h]
  · simp only [V1.process_voice_note_gemini, h]
    cases sOk <;> cases tOk <;> simp [producedCount]
  · simp only [V1.process_voice_note_gemini, V1.mainExitCode, h]
    cases sOk <;> cases tOk <;> simp [producedCount]

/-- C9 witness: failed access check, one of the two markdown writes
succeeding — two of three files produced, so the run reports success. -/
theorem c9_witness :
    (V1.process_voice_note_gemini "hola. buen día." false none "clase.mp3"
      "2026-10-12" "10:00" "gemini-1.5-flash" true false).usedSummary =
      V1.generate_basic_summary "hola. buen día." ∧
    (V1.process_voice_note_gemini "hola. buen día." false none "clase.mp3"
      "2026-10-12" "10:00" "gemini-1.5-flash" true false).summaryDoc =
      V1.create_obsidian_summary_only (V1.generate_basic_summary "hola. buen día.")
        "clase.mp3" "2026-10-12" "10:00" "gemini-1.5-flash" ∧
    (V1.process_voice_note_gemini "hola. buen día." false none "clase.mp3"
      "2026-10-12" "10:00" "gemini-1.5-flash" true false).transcriptionDoc =
      V1.create_obsidian_transcription_only "hola. buen día." "clase.mp3"
        "2026-10-12" "10:00" ∧
    ((V1.process_voice_note_gemini "hola. buen día." false none "clase.mp3"
      "2026-10-12" "10:00" "gemini-1.5-flash" true false).success = true ↔
      2 ≤ producedCount true false) ∧
    V1.mainExitCode (V1.process_voice_note_gemini "hola. buen día." false none
      "clase.mp3" "2026-10-12" "10:00" "gemini-1.5-flash" true false).success =
      (if 2 ≤ producedCount true false then 0 else 1) :=
  c9_fallback_and_success_rule "hola. buen día." false none "clase.mp3"
    "2026-10-12" "10:00" "gemini-1.5-flash" true false rfl

/-! ### Claim C10 — the V2 pipeline driver has no fallback -/

namespace V2

/-- V2 `main` hands the raw result of `generate_gemini_summary` straight to
`create_obsidian_summary_only` (lines 232-234).  Called with `None`, the
renderer's first field access `gemini_summary.get('resumen_ejecutivo', ...)`
raises `AttributeError` before anything is written; `Except.error` models
the raised exception. -/
def renderSummaryOpt (g? : Option SummaryRecord) (fn d t m : String) :
    Except String String :=
  match g? with
  | none => .error "AttributeError: NoneType object has no attribute get"
  | some g => .ok (create_obsidian_summary_only g fn d t m)

/-- Outcome of the tail of V2 `main` after a successful transcription
(lines 227-234): which files were written and whether an exception escaped. -/
structure MainResult where
  txtWritten : Bool
  summaryWritten : Bool
  uncaughtError : Option String

/-- The tail of V2 `main` (lines 229-234): the plain transcript is saved,
then the summary renderer is invoked on the (possibly null) summary result
with no fallback and no exception handler; an `AttributeError` raised there
terminates the run with only the transcript written. -/
def mainAfterTranscription (summaryResult : Option SummaryRecord)
    (fn d t m : String) : MainResult :=
  match renderSummaryOpt summaryResult fn d t m with
  | .error e =>
    { txtWritten := true, summaryWritten := false, uncaughtError := some e }
  | .ok _ =>
    { txtWritten := true, summaryWritten := true, uncaughtError := none }

end V2

/-- C10: in V2, a missing API key makes the summarization call return a
null result whatever the backend would have answered; the renderer applied
to a null record raises (`AttributeError` at its first field access), and
the pipeline then terminates with an unhandled error having written only
the plain-transcript file. -/
theorem c10_v2_null_summary_crashes :
    ∀ (fn d t m : String) (callResult : Option String),
    V2.generate_gemini_summary none callResult = none ∧
    V2.renderSummaryOpt none fn d t m =
      Except.error "AttributeError: NoneType object has no attribute get" ∧
    V2.mainAfterTranscription none fn d t m =
      { txtWritten := true, summaryWritten := false,
        uncaughtError := some "AttributeError: NoneType object has no attribute get" } := by
  intro fn d t m r
  exact ⟨rfl, rfl, rfl⟩
